import Mathlib

/-!
Verification of the student dropout predictor core.

This file gives a shallow embedding, in Lean, of the risk-scoring pipeline:
the risk-tier thresholds from config.py, the synthetic-label construction and
the prediction path from model_trainer.py, the attribution-report guards from
explainability.py, the missing-value and percentage-cleaning steps from
data_processor.py, and the intervention recommender from
intervention_system.py.  Machine floats are modelled by rational numbers
(the embedded code only compares, adds, scales and averages them), pandas
missing values (NaN) by Option, and Python exceptions by an explicit error
type returned through Except.  The fitted XGBoost model and the SHAP
explainer objects are opaque function-valued fields of the corresponding
structures, since their numeric behaviour lives in external libraries.
-/

namespace StudentDropout

/-! ### Risk thresholds (config.py, RISK_THRESHOLDS) -/

/-- The fixed risk thresholds of config.py: high = 0.65, medium = 0.35, low = 0.0. -/
structure RiskThresholds where
  high : ℚ
  medium : ℚ
  low : ℚ
deriving DecidableEq, Repr

/-- config.py lines 30-34. -/
def RISK_THRESHOLDS : RiskThresholds :=
  { high := 65/100, medium := 35/100, low := 0 }

/-- The probability-to-tier mapping of DropoutPredictor.predict
(model_trainer.py lines 228-235): p at or above the high threshold is High,
otherwise p at or above the medium threshold is Medium, otherwise Low. -/
def predictRiskLabel (prob : ℚ) : String :=
  if prob ≥ RISK_THRESHOLDS.high then "High"
  else if prob ≥ RISK_THRESHOLDS.medium then "Medium"
  else "Low"

/-- The probability-to-tier mapping of ModelExplainer.explain_local
(explainability.py lines 120-126), with its hard-coded 0.65 / 0.35 cut points. -/
def explainLocalRiskLevel (probability : ℚ) : String :=
  if probability ≥ 65/100 then "High"
  else if probability ≥ 35/100 then "Medium"
  else "Low"

/-! ### Synthetic target (model_trainer.py, DropoutPredictor._create_synthetic_target) -/

/-- One row of the training table, restricted to the five columns the
synthetic-target construction reads.  A field is none when the column is
absent from the dataframe (the `if col in df.columns` guards). -/
structure TrainRow where
  attendance_percentage : Option ℚ
  assignment_timeliness : Option ℚ
  quiz_test_avg_pct : Option ℚ
  fee_payment_status : Option ℚ
  lms_login_count_monthly : Option ℚ
deriving DecidableEq, Repr

/-- One accumulation step of _create_synthetic_target: when the column is
present, `(df[col] < thr).astype(int) * w` contributes w if the value is
below the threshold and 0 otherwise; an absent column contributes nothing. -/
def riskTerm (v : Option ℚ) (thr : ℚ) (w : ℤ) : ℤ :=
  match v with
  | some x => (if x < thr then 1 else 0) * w
  | none => 0

/-- The per-row integer weight accumulated by _create_synthetic_target
(model_trainer.py lines 70-86), starting from the zero array. -/
def create_synthetic_target_weight (r : TrainRow) : ℤ :=
  0 + riskTerm r.attendance_percentage 60 2
    + riskTerm r.assignment_timeliness 50 2
    + riskTerm r.quiz_test_avg_pct 50 2
    + riskTerm r.fee_payment_status (1/2) 1
    + riskTerm r.lms_login_count_monthly 5 1

/-- The binary label `(target >= 3).astype(int)` (model_trainer.py line 89). -/
def create_synthetic_target (r : TrainRow) : ℤ :=
  if create_synthetic_target_weight r ≥ 3 then 1 else 0

/-- The synthetic weight as the specification words it: a sum over the list
of (column value, threshold, weight) triples, each term contributing its
weight exactly when its column is present and its value is below the
threshold.  Stated separately from create_synthetic_target_weight so the two
formulations can be compared. -/
def specSyntheticWeight (r : TrainRow) : ℤ :=
  (([(r.attendance_percentage, 60, 2), (r.assignment_timeliness, 50, 2),
     (r.quiz_test_avg_pct, 50, 2), (r.fee_payment_status, 1/2, 1),
     (r.lms_login_count_monthly, 5, 1)] :
      List (Option ℚ × ℚ × ℤ)).map
    (fun t => if t.1.any (fun x => decide (x < t.2.1)) then t.2.2 else 0)).sum

/-- The concrete record of the specification scenario: attendance 40,
quiz average 45, payment 0 (unpaid), 2 monthly logins, and no
assignment-timeliness column. -/
def scenarioRow : TrainRow :=
  { attendance_percentage := some 40
    assignment_timeliness := none
    quiz_test_avg_pct := some 45
    fee_payment_status := some 0
    lms_login_count_monthly := some 2 }

/-! ### Numeric columns, dataframes and pandas helpers -/

/-- A numeric pandas column: a list of cells, none standing for NaN. -/
abbrev NumCol : Type := List (Option ℚ)

/-- A dataframe as an ordered association of column names to columns. -/
abbrev DataFrame : Type := List (String × NumCol)

/-- The values of a column that are not NaN (pandas skips NaN by default). -/
def presentVals (c : NumCol) : List ℚ := c.filterMap id

/-- The median of an already sorted list: the middle element for odd
length, the mean of the two middle elements for even length, and NaN (here
none) for the empty list. -/
def medianOfSorted (s : List ℚ) : Option ℚ :=
  if s.length = 0 then none
  else if s.length % 2 = 1 then s[s.length / 2]?
  else do
    let a ← s[s.length / 2 - 1]?
    let b ← s[s.length / 2]?
    pure ((a + b) / 2)

/-- The pandas median of a list of values: sort, then take the middle. -/
def pandasMedian (l : List ℚ) : Option ℚ :=
  medianOfSorted (List.insertionSort (· ≤ ·) l)

/-- The column median with NaN skipped, as Series.median computes it. -/
def colMedian (c : NumCol) : Option ℚ := pandasMedian (presentVals c)

/-- Series.fillna with an optional fill value: each NaN cell becomes the
fill value; when the fill value is itself NaN (a median of an all-NaN
column) the cell stays NaN. -/
def fillna (c : NumCol) (m : Option ℚ) : NumCol :=
  c.map (fun v => v <|> m)

/-- The number of rows of a dataframe (pandas len(df)); every column of a
dataframe has this length. -/
def nrows (X : DataFrame) : ℕ :=
  ((X.head?).map (fun p => p.2.length)).getD 0

/-- Row extraction from a list of equal-length columns: row i holds the
i-th cell of each column, in column order. -/
def rowsOf (cols : List NumCol) : List (List (Option ℚ)) :=
  match cols with
  | [] => []
  | c :: _ => (List.range c.length).map (fun i => cols.map (fun col => (col[i]?).join))

/-! ### Python exceptions raised by the embedded code -/

/-- The exceptions the embedded code can raise.  keyError carries the
column labels a dataframe selection did not find, as pandas reports them. -/
inductive PyError where
  | keyError (missing : List String)
  | valueError (msg : String)
  | indexError
deriving DecidableEq, Repr

/-- The error predict raises on an untrained model (model_trainer.py
line 218).  The specification taxonomy calls it NotTrainedError. -/
def NotTrainedError : PyError :=
  .valueError "Model must be trained before making predictions"

/-- The error explain_global and explain_local raise before
initialize_explainer has run (explainability.py lines 56 and 93).  The
specification taxonomy calls it NotInitializedError. -/
def NotInitializedError : PyError :=
  .valueError "Explainer not initialized. Call initialize_explainer first."

/-! ### DropoutPredictor.predict (model_trainer.py lines 207-237) -/

/-- The DropoutPredictor state that predict reads.  The fitted XGBoost
classifier is opaque: modelPredict and modelPredictProba stand for
model.predict and the positive-class column of model.predict_proba on one
row (XGBoost accepts NaN cells natively, hence Option arguments). -/
structure DropoutPredictor where
  is_trained : Bool
  feature_columns : List String
  modelPredict : List (Option ℚ) → ℕ
  modelPredictProba : List (Option ℚ) → ℚ

/-- Dataframe column selection `X[cols]`: pandas raises KeyError listing the
requested labels that are absent; otherwise it returns the columns in the
requested order. -/
def selectColumns (X : DataFrame) (cols : List String) :
    Except PyError (List NumCol) :=
  let missing := cols.filter (fun c => (X.lookup c).isNone)
  if missing.isEmpty then .ok (cols.filterMap (fun c => X.lookup c))
  else .error (.keyError missing)

/-- DropoutPredictor.predict: guard on is_trained, select exactly the
trained feature columns (KeyError when one is absent), fill NaN cells with
the per-column median of the selected input batch, score each row with the
fitted model, and map each probability to a risk tier. -/
def predict (P : DropoutPredictor) (X : DataFrame) :
    Except PyError (List ℕ × List ℚ × List String) :=
  if P.is_trained = false then
    .error NotTrainedError
  else
    match selectColumns X P.feature_columns with
    | .error e => .error e
    | .ok cols =>
      let filled := cols.map (fun c => fillna c (colMedian c))
      let rows := rowsOf filled
      let probabilities := rows.map P.modelPredictProba
      .ok (rows.map P.modelPredict, probabilities,
        probabilities.map predictRiskLabel)

/-- The reindex step of the API boundary (api.py line 220):
X.reindex(columns=feature_columns, fill_value=0) keeps the requested
columns in order, builds any absent column as a constant-0 column, and
drops columns not requested. -/
def reindexFillZero (X : DataFrame) (cols : List String) : DataFrame :=
  cols.map (fun c => (c, (X.lookup c).getD (List.replicate (nrows X) (some 0))))

/-! ### DropoutPredictor.load_model (model_trainer.py lines 267-281) -/

/-- The DropoutPredictor fields load_model writes.  The deserialized
ensemble object is opaque and represented by a numeric handle. -/
structure ModelState where
  model : Option ℕ
  feature_columns : List String
  model_version : Option String
  training_metrics : List (String × ℚ)
  is_trained : Bool
deriving DecidableEq, Repr

/-- A deserialized artifact dictionary: none for a key the dictionary does
not hold (reading such a key raises KeyError inside the try block). -/
structure ModelArtifact where
  model : Option ℕ
  feature_columns : Option (List String)
  model_version : Option String
  training_metrics : Option (List (String × ℚ))
deriving DecidableEq, Repr

/-- DropoutPredictor.load_model.  The input is none when joblib.load itself
raises on a corrupted file.  The try/except swallows every exception and
returns False, keeping whatever field assignments already ran; on success
every field is assigned and the call returns True.  training_metrics uses
dict.get with default, so it cannot raise. -/
def load_model (st : ModelState) (artifact : Option ModelArtifact) :
    Bool × ModelState :=
  match artifact with
  | none => (false, st)
  | some d =>
    match d.model with
    | none => (false, st)
    | some m =>
      let st1 := { st with model := some m }
      match d.feature_columns with
      | none => (false, st1)
      | some fc =>
        let st2 := { st1 with feature_columns := fc }
        match d.model_version with
        | none => (false, st2)
        | some v =>
          let st3 := { st2 with model_version := some v }
          let st4 := { st3 with training_metrics := d.training_metrics.getD [] }
          (true, { st4 with is_trained := true })

/-! ### ModelExplainer (explainability.py lines 18-145) -/

/-- The SHAP TreeExplainer object is opaque: shapValues stands for
explainer.shap_values on a batch of rows (one attribution vector per row)
and expectedValue for explainer.expected_value. -/
structure ShapExplainer where
  shapValues : List (List (Option ℚ)) → List (List ℚ)
  expectedValue : ℚ

/-- The ModelExplainer state: the wrapped predictor, the optional
explainer, and the expected value recorded by initialize_explainer. -/
structure ModelExplainer where
  model : DropoutPredictor
  explainer : Option ShapExplainer
  expected_value : Option ℚ

/-- ModelExplainer.initialize_explainer: requires a trained model, then
stores the TreeExplainer built over it and records its expected value. -/
def initialize_explainer (E : ModelExplainer) (ex : ShapExplainer) :
    Except PyError ModelExplainer :=
  if E.model.is_trained = false then
    .error (.valueError "Model must be trained before initializing explainer")
  else
    .ok { E with explainer := some ex, expected_value := some ex.expectedValue }

/-- The arithmetic mean, as numpy mean over a list of rationals. -/
def meanQ (l : List ℚ) : ℚ := l.sum / l.length

/-- Column j of a row-major matrix. -/
def matrixColumn (m : List (List ℚ)) (j : ℕ) : List ℚ :=
  m.filterMap (fun row => row[j]?)

/-- The report of explain_global: per-feature mean absolute attribution
sorted descending, per-feature positive and negative impact shares, the
full attribution matrix, and the recorded baseline. -/
structure GlobalExplanation where
  feature_importance : List (String × ℚ)
  feature_impact : List (String × ℚ × ℚ)
  shap_values : List (List ℚ)
  expected_value : Option ℚ

/-- ModelExplainer.explain_global: guard on the explainer, compute the
attribution matrix, rank features by mean absolute attribution (pandas
sort_values descending; tie order among equal importances is not pinned by
pandas, a stable descending sort is fixed here), and report impact
shares. -/
def explain_global (E : ModelExplainer) (X : List (List (Option ℚ))) :
    Except PyError GlobalExplanation :=
  match E.explainer with
  | none => .error NotInitializedError
  | some ex =>
    let sv := ex.shapValues X
    let importance := E.model.feature_columns.enum.map
      (fun p => (p.2, meanQ ((matrixColumn sv p.1).map (fun q => |q|))))
    let impact := E.model.feature_columns.enum.map
      (fun p => (p.2,
        meanQ ((matrixColumn sv p.1).map (fun q => if 0 < q then 1 else 0)),
        meanQ ((matrixColumn sv p.1).map (fun q => if q < 0 then 1 else 0))))
    .ok { feature_importance :=
            importance.insertionSort (fun a b => b.2 ≤ a.2)
          feature_impact := impact
          shap_values := sv
          expected_value := E.expected_value }

/-- One entry of the explain_local report. -/
structure LocalExplanation where
  student_index : ℕ
  prediction : ℕ
  probability : ℚ
  risk_level : String
  top_features : List (String × ℚ × ℚ)
  shap_values : List ℚ
  feature_values : List (String × Option ℚ)
  expected_value : Option ℚ

/-- ModelExplainer.explain_local: guard on the explainer, default the index
list to every row, select the rows (iloc raises IndexError past the end),
compute attributions for the selection, and per index report prediction,
probability, the risk tier from the hard-coded 0.65 / 0.35 thresholds, the
top-3 attributions by absolute value (stable descending sort standing in
for pandas sort_values), the full attribution vector, the raw feature
values, and the recorded baseline. -/
def explain_local (E : ModelExplainer) (X : List (List (Option ℚ)))
    (student_indices : Option (List ℕ)) :
    Except PyError (List LocalExplanation × Option ℚ) :=
  match E.explainer with
  | none => .error NotInitializedError
  | some ex =>
    let indices := student_indices.getD (List.range X.length)
    if indices.any (fun i => X.length ≤ i) then .error .indexError
    else
      let Xsel := indices.filterMap (fun i => X[i]?)
      let sv := ex.shapValues Xsel
      .ok ((indices.enum.map (fun p =>
        let student_shap := (sv[p.1]?).getD []
        let contributions := (E.model.feature_columns.zip student_shap).map
          (fun q => (q.1, q.2, |q.2|))
        let row := (Xsel[p.1]?).getD []
        let probability := E.model.modelPredictProba row
        { student_index := p.2
          prediction := E.model.modelPredict row
          probability := probability
          risk_level := explainLocalRiskLevel probability
          top_features :=
            (contributions.insertionSort (fun a b => b.2.2 ≤ a.2.2)).take 3
          shap_values := student_shap
          feature_values := E.model.feature_columns.zip row
          expected_value := E.expected_value })),
        E.expected_value)

/-! ### InterventionRecommender (intervention_system.py lines 23-212) -/

/-- The student_data dictionary restricted to the fields the rule analyzers
read; none when the key is absent (dict.get then takes the default). -/
structure StudentData where
  attendance_percentage : Option ℚ
  quiz_test_avg_pct : Option ℚ
  assignment_timeliness : Option ℚ
  fee_payment_status : Option ℚ
  lms_login_count_monthly : Option ℚ
  time_spent_online_hours_week : Option ℚ
  socioeconomic_status : Option ℚ
deriving DecidableEq, Repr

/-- The all-absent student_data dictionary. -/
def emptyStudent : StudentData :=
  { attendance_percentage := none
    quiz_test_avg_pct := none
    assignment_timeliness := none
    fee_payment_status := none
    lms_login_count_monthly := none
    time_spent_online_hours_week := none
    socioeconomic_status := none }

/-- The feature-impact dictionary dict(zip(feature_names, shap_values))
looked up with default 0; a duplicated name keeps its last value, as a
Python dict built from zip does. -/
def featureImpact (feature_names : List String) (shap_values : List ℚ)
    (k : String) : ℚ :=
  (((feature_names.zip shap_values).reverse).lookup k).getD 0

/-- The current_value field of a recommendation.  Each constructor stands
for one of the Python format strings of intervention_system.py, applied to
the unformatted value, so distinct renderings stay distinct. -/
inductive CurrentValue where
  | pctText (q : ℚ)
  | loginsPerMonthText (q : ℚ)
  | hoursPerWeekText (q : ℚ)
  | paymentText (notFullyPaid : Bool)
  | levelText (q : ℚ)
deriving DecidableEq, Repr

/-- One intervention recommendation, with the fields every analyzer of
intervention_system.py fills. -/
structure Recommendation where
  factor : String
  current_value : CurrentValue
  target_value : String
  recommendation : String
  priority : String
  priority_score : ℕ
  impact_score : ℚ
  intervention_type : String
  timeline : String
  resources_needed : List String
  success_metrics : List String
deriving DecidableEq, Repr

/-- InterventionRecommender._analyze_attendance_risk (lines 53-75). -/
def analyze_attendance_risk (sd : StudentData) (fi : String → ℚ) :
    List Recommendation :=
  let attendance := sd.attendance_percentage.getD 100
  let attendance_impact := fi "attendance_percentage"
  if attendance < 70 ∨ attendance_impact < -(1/10) then
    [{ factor := "Low Attendance"
       current_value := .pctText attendance
       target_value := ">80%"
       recommendation := "Schedule counseling session and implement attendance tracking"
       priority := "High"
       priority_score := 9
       impact_score := |attendance_impact|
       intervention_type := "academic_support"
       timeline := "1-2 weeks"
       resources_needed := ["Counselor", "Attendance tracking system"]
       success_metrics := ["Attendance improvement", "Engagement increase"] }]
  else []

/-- InterventionRecommender._analyze_academic_performance_risk
(lines 77-119): a quiz-performance rule then an assignment-timeliness
rule. -/
def analyze_academic_performance_risk (sd : StudentData) (fi : String → ℚ) :
    List Recommendation :=
  let quiz_performance := sd.quiz_test_avg_pct.getD 100
  let quiz_impact := fi "quiz_test_avg_pct"
  let first :=
    if quiz_performance < 60 ∨ quiz_impact < -(1/10) then
      [{ factor := "Poor Academic Performance"
         current_value := .pctText quiz_performance
         target_value := ">70%"
         recommendation := "Arrange tutoring and study groups"
         priority := "High"
         priority_score := 8
         impact_score := |quiz_impact|
         intervention_type := "academic_support"
         timeline := "2-4 weeks"
         resources_needed := ["Tutor", "Study materials", "Study group facilitator"]
         success_metrics := ["Grade improvement", "Assignment completion"] }]
    else []
  let assignment_timeliness := sd.assignment_timeliness.getD 100
  let assignment_impact := fi "assignment_timeliness"
  let second :=
    if assignment_timeliness < 50 ∨ assignment_impact < -(1/10) then
      [{ factor := "Assignment Delays"
         current_value := .pctText assignment_timeliness
         target_value := ">80%"
         recommendation := "Implement time management training and deadline reminders"
         priority := "Medium"
         priority_score := 6
         impact_score := |assignment_impact|
         intervention_type := "time_management"
         timeline := "1-3 weeks"
         resources_needed := ["Time management coach", "Reminder system"]
         success_metrics := ["On-time submission rate", "Stress reduction"] }]
    else []
  first ++ second

/-- InterventionRecommender._analyze_financial_risk (lines 121-143). -/
def analyze_financial_risk (sd : StudentData) (fi : String → ℚ) :
    List Recommendation :=
  let payment_status := sd.fee_payment_status.getD 1
  let payment_impact := fi "fee_payment_status"
  if payment_status < 1 ∨ payment_impact < -(1/10) then
    [{ factor := "Financial Issues"
       current_value := .paymentText (decide (payment_status < 1))
       target_value := "Fully Paid"
       recommendation := "Connect with financial aid office and explore payment plans"
       priority := "High"
       priority_score := 9
       impact_score := |payment_impact|
       intervention_type := "financial_support"
       timeline := "1-2 weeks"
       resources_needed := ["Financial aid counselor", "Payment plan options"]
       success_metrics := ["Payment completion", "Financial stress reduction"] }]
  else []

/-- InterventionRecommender._analyze_engagement_risk (lines 145-187): an
LMS-login rule then a weekly-online-time rule.  Both read their value with
default 0. -/
def analyze_engagement_risk (sd : StudentData) (fi : String → ℚ) :
    List Recommendation :=
  let lms_logins := sd.lms_login_count_monthly.getD 0
  let lms_impact := fi "lms_login_count_monthly"
  let first :=
    if lms_logins < 5 ∨ lms_impact < -(1/20) then
      [{ factor := "Low Online Engagement"
         current_value := .loginsPerMonthText lms_logins
         target_value := ">15 logins/month"
         recommendation := "Provide additional learning resources and one-on-one support"
         priority := "Medium"
         priority_score := 5
         impact_score := |lms_impact|
         intervention_type := "engagement_support"
         timeline := "2-3 weeks"
         resources_needed := ["Online learning specialist", "Engaging content"]
         success_metrics := ["Login frequency", "Content interaction"] }]
    else []
  let online_time := sd.time_spent_online_hours_week.getD 0
  let online_impact := fi "time_spent_online_hours_week"
  let second :=
    if online_time < 3 ∨ online_impact < -(1/20) then
      [{ factor := "Low Online Activity"
         current_value := .hoursPerWeekText online_time
         target_value := ">8 hours/week"
         recommendation := "Provide internet access support and digital literacy training"
         priority := "Medium"
         priority_score := 4
         impact_score := |online_impact|
         intervention_type := "technology_support"
         timeline := "1-2 weeks"
         resources_needed := ["Internet access", "Digital literacy trainer"]
         success_metrics := ["Online activity time", "Digital skills improvement"] }]
    else []
  first ++ second

/-- InterventionRecommender._analyze_behavioral_risk (lines 189-212). -/
def analyze_behavioral_risk (sd : StudentData) (fi : String → ℚ) :
    List Recommendation :=
  let socioeconomic_status := sd.socioeconomic_status.getD 3
  let ses_impact := fi "socioeconomic_status"
  if socioeconomic_status < 2 ∨ ses_impact < -(1/20) then
    [{ factor := "Socioeconomic Challenges"
       current_value := .levelText socioeconomic_status
       target_value := "Improved support"
       recommendation := "Provide comprehensive support services and mentorship"
       priority := "High"
       priority_score := 7
       impact_score := |ses_impact|
       intervention_type := "comprehensive_support"
       timeline := "4-6 weeks"
       resources_needed := ["Mentor", "Support services coordinator", "Community resources"]
       success_metrics := ["Overall well-being", "Academic persistence"] }]
  else []

/-- The sort key of analyze_student_risk_factors:
(priority_score, impact_score). -/
def recKey (r : Recommendation) : ℕ × ℚ := (r.priority_score, r.impact_score)

/-- Lexicographic at-least on (priority_score, impact_score) pairs: the
first pair is greater on the first component, or equal there and at least
on the second.  Python tuple comparison under reverse=True orders by
exactly this relation. -/
def pairLexGE (x y : ℕ × ℚ) : Prop :=
  y.1 < x.1 ∨ (y.1 = x.1 ∧ y.2 ≤ x.2)

/-- The descending recommendation order used by the final sort. -/
def recDescOrder (a b : Recommendation) : Prop := pairLexGE (recKey a) (recKey b)

instance : DecidableRel pairLexGE := fun x y => by
  unfold pairLexGE
  infer_instance

instance : DecidableRel recDescOrder := fun a b => by
  unfold recDescOrder
  infer_instance

instance : IsTotal Recommendation recDescOrder where
  total a b := by
    unfold recDescOrder pairLexGE
    rcases lt_trichotomy (recKey a).1 (recKey b).1 with h | h | h
    · exact Or.inr (Or.inl h)
    · rcases le_total (recKey b).2 (recKey a).2 with h2 | h2
      · exact Or.inl (Or.inr ⟨h.symm, h2⟩)
      · exact Or.inr (Or.inr ⟨h, h2⟩)
    · exact Or.inl (Or.inl h)

instance : IsTrans Recommendation recDescOrder where
  trans a b c hab hbc := by
    unfold recDescOrder pairLexGE at *
    rcases hab with h1 | ⟨h1, h1q⟩ <;> rcases hbc with h2 | ⟨h2, h2q⟩
    · exact Or.inl (h2.trans h1)
    · exact Or.inl (h2 ▸ h1)
    · exact Or.inl (h1 ▸ h2)
    · exact Or.inr ⟨h2.trans h1, h2q.trans h1q⟩

/-- InterventionRecommender.analyze_student_risk_factors (lines 23-51):
build the impact dictionary, run the five analyzers in order, sort the
collected recommendations descending by (priority_score, impact_score)
(list.sort with reverse=True is a stable descending sort, matched here by a
stable insertion sort under the descending order), and keep the first
five. -/
def analyze_student_risk_factors (sd : StudentData) (shap_values : List ℚ)
    (feature_names : List String) : List Recommendation :=
  let fi := featureImpact feature_names shap_values
  let recommendations :=
    analyze_attendance_risk sd fi ++
    analyze_academic_performance_risk sd fi ++
    analyze_financial_risk sd fi ++
    analyze_engagement_risk sd fi ++
    analyze_behavioral_risk sd fi
  (recommendations.insertionSort recDescOrder).take 5

/-! ### DataProcessor._handle_missing_values (data_processor.py lines 133-157) -/

/-- A dataframe column as _handle_missing_values sees it: pandas dtype
decides the branch, so a column is numeric (int64/float64) or
categorical (object), with none for a missing cell. -/
inductive ColData where
  | numericCol (vals : List (Option ℚ))
  | categoricalCol (vals : List (Option String))
deriving DecidableEq, Repr

/-- The row count of a column. -/
def colLength : ColData → ℕ
  | .numericCol vals => vals.length
  | .categoricalCol vals => vals.length

/-- The missing-cell count of a column (Series.isnull().sum()). -/
def colMissingCount : ColData → ℕ
  | .numericCol vals => (vals.filter Option.isNone).length
  | .categoricalCol vals => (vals.filter Option.isNone).length

/-- How many times v occurs in l. -/
def countOcc (l : List String) (v : String) : ℕ :=
  (l.filter (fun x => x == v)).length

/-- Series.mode()[0] on the present values: pandas returns the most
frequent values sorted ascending and the code takes the first, so the
result is the smallest value of maximal frequency; none exactly when no
value is present (mode() is empty). -/
def pandasMode (l : List String) : Option String :=
  match (l.map (countOcc l)).max? with
  | none => none
  | some mx =>
    ((l.filter (fun v => countOcc l v = mx)).insertionSort (· ≤ ·)).head?

/-- The missing share of a column in percent, as computed by
_handle_missing_values. -/
def missingPct (c : ColData) : ℚ :=
  ((colMissingCount c : ℚ) / (colLength c : ℚ)) * 100

/-- The per-column body of _handle_missing_values: report count and share;
with missing cells, a share above 30 only logs a warning (returned here as
the Bool flag) and changes nothing, otherwise a numeric column is filled
with its median and a categorical column with its mode when the mode
exists. -/
def handleMissingColumn (c : ColData) : ColData × Bool :=
  if 0 < colMissingCount c then
    if 30 < missingPct c then (c, true)
    else
      match c with
      | .numericCol vals =>
        (.numericCol (fillna vals (pandasMedian (vals.filterMap id))), false)
      | .categoricalCol vals =>
        match pandasMode (vals.filterMap id) with
        | some mv => (.categoricalCol (vals.map (fun v => v <|> some mv)), false)
        | none => (.categoricalCol vals, false)
  else (c, false)

/-- DataProcessor._handle_missing_values over a dataframe: every column is
processed in place by handleMissingColumn — none is ever dropped — and the
names of the columns whose share exceeded 30 percent are the flagged
warnings. -/
def handle_missing_values (df : List (String × ColData)) :
    List (String × ColData) × List String :=
  (df.map (fun p => (p.1, (handleMissingColumn p.2).1)),
   (df.filter (fun p => (handleMissingColumn p.2).2)).map (fun p => p.1))

/-! ### DataProcessor._clean_data_types, percentage section
(data_processor.py lines 100-113) -/

/-- A raw cell of a percentage column before cleaning.  After
astype(str).str.replace of the percent sign and str.strip, a cell either
reads as a number (numCell, with the flag recording whether a percent sign
was attached) or it does not and pd.to_numeric(errors=coerce) yields NaN
(junkCell, which also covers an already-missing cell). -/
inductive RawCell where
  | numCell (q : ℚ) (withPercentSign : Bool)
  | junkCell
deriving DecidableEq, Repr

/-- Percent-sign stripping followed by coercing numeric parse. -/
def parseCell : RawCell → Option ℚ
  | .numCell q _ => some q
  | .junkCell => none

/-- The percentage-column cleaning of _clean_data_types applied to one
column: strip percent signs and parse every cell, then — only when the
column is assignment_timeliness — rescale by 100 when the median of the
parsed values exists and is at most 1. -/
def clean_percentage_column (colName : String) (col : List RawCell) :
    List (Option ℚ) :=
  let parsed := col.map parseCell
  if colName = "assignment_timeliness" then
    match pandasMedian (parsed.filterMap id) with
    | some med => if med ≤ 1 then parsed.map (Option.map (fun q => q * 100))
                  else parsed
    | none => parsed
  else parsed

end StudentDropout

namespace StudentDropout

/-- C2: every probability gets exactly one risk tier; predict and
explain_local agree pointwise; the tiers follow the fixed thresholds
high = 0.65 and medium = 0.35 and are non-overlapping and exhaustive. -/
theorem risk_tier_total_non_overlapping (p : ℚ) :
    predictRiskLabel p = explainLocalRiskLevel p ∧
    (predictRiskLabel p = "High" ↔ 65/100 ≤ p) ∧
    (predictRiskLabel p = "Medium" ↔ 35/100 ≤ p ∧ p < 65/100) ∧
    (predictRiskLabel p = "Low" ↔ p < 35/100) ∧
    (predictRiskLabel p = "High" ∨ predictRiskLabel p = "Medium" ∨
      predictRiskLabel p = "Low") := by
  unfold predictRiskLabel explainLocalRiskLevel RISK_THRESHOLDS
  split_ifs with h1 h2 <;>
    refine ⟨rfl, ?_, ?_, ?_, ?_⟩ <;>
      simp only [String.reduceEq, ge_iff_le, not_le, iff_true, iff_false,
        false_iff, true_iff, not_and, not_lt, true_or, or_true] at * <;>
      try constructor
  all_goals intros
  all_goals linarith

/-- C3: the synthetic-label weight computed by _create_synthetic_target is
exactly the specification sum (+2 for attendance below 60, +2 for assignment
timeliness below 50, +2 for quiz average below 50, +1 for payment status
below 0.5, +1 for logins below 5, each only when its column is present); the
binary label is 1 exactly when the weight is at least 3; and the scenario
record (attendance 40, quiz 45, payment 0, logins 2) has weight 6 and
label 1. -/
theorem synthetic_target_weight_law (r : TrainRow) :
    create_synthetic_target_weight r = specSyntheticWeight r ∧
    (create_synthetic_target r = 1 ↔ create_synthetic_target_weight r ≥ 3) ∧
    create_synthetic_target_weight scenarioRow = 6 ∧
    create_synthetic_target scenarioRow = 1 := by
  refine ⟨?_, ?_,
    by norm_num [create_synthetic_target_weight, riskTerm, scenarioRow],
    by norm_num [create_synthetic_target, create_synthetic_target_weight,
      riskTerm, scenarioRow]⟩
  · obtain ⟨a, b, c, d, e⟩ := r
    simp only [create_synthetic_target_weight, specSyntheticWeight,
      List.map_cons, List.map_nil, List.sum_cons, List.sum_nil]
    cases a <;> cases b <;> cases c <;> cases d <;> cases e <;>
      simp only [riskTerm, Option.any_none, Option.any_some,
        decide_eq_true_eq, if_false, Bool.false_eq_true] <;>
      (try split_ifs) <;> omega
  · unfold create_synthetic_target
    split_ifs with h
    · simp [h]
    · simpa using h

/-- Looking a key up in an association list built by pairing each key with
a value always succeeds for a listed key. -/
theorem lookup_map_isSome (f : String → NumCol) :
    ∀ (cols : List String) (c : String), c ∈ cols →
      ((cols.map (fun n => (n, f n))).lookup c).isSome
  | [], _, h => by cases h
  | a :: t, c, h => by
    by_cases hca : c = a
    · subst hca
      simp [List.lookup]
    · have hc : c ∈ t := by
        cases h with
        | head => exact absurd rfl hca
        | tail _ h2 => exact h2
      have hbeq : (c == a) = false := by
        simp [hca]
      simp only [List.map_cons, List.lookup, hbeq]
      exact lookup_map_isSome f t c hc

/-- The concrete trained predictor of the missing-column counterexample:
two trained feature columns and an opaque constant model. -/
def cexPredictor : DropoutPredictor :=
  { is_trained := true
    feature_columns := ["attendance_percentage", "quiz_test_avg_pct"]
    modelPredict := fun _ => 0
    modelPredictProba := fun _ => 0 }

/-- An input batch holding only the first trained column. -/
def cexFrame : DataFrame := [("attendance_percentage", [some 50])]

/-- C4 counterexample: predict on a table missing the trained column
quiz_test_avg_pct raises KeyError rather than filling the column and
returning a result. -/
theorem predict_missing_column_raises :
    predict cexPredictor cexFrame = .error (.keyError ["quiz_test_avg_pct"]) := by
  rfl

/-- C4 (amended): on a trained model, predict raises KeyError naming the
trained feature columns absent from the input, so it never returns a
result there; after the API-boundary reindex with fill value 0, every
trained column is present and predict returns a result. -/
theorem predict_missing_column_behavior (P : DropoutPredictor)
    (X Y : DataFrame) (c : String) (hT : P.is_trained = true)
    (hc : c ∈ P.feature_columns) (hmiss : X.lookup c = none) :
    predict P X = .error (.keyError
      (P.feature_columns.filter (fun n => (X.lookup n).isNone))) ∧
    P.feature_columns.filter (fun n => (X.lookup n).isNone) ≠ [] ∧
    ∃ res, predict P (reindexFillZero Y P.feature_columns) = .ok res := by
  have hmem : c ∈ P.feature_columns.filter (fun n => (X.lookup n).isNone) := by
    rw [List.mem_filter]
    exact ⟨hc, by simp [hmiss]⟩
  have hne : P.feature_columns.filter (fun n => (X.lookup n).isNone) ≠ [] :=
    List.ne_nil_of_mem hmem
  have hie : (P.feature_columns.filter
      (fun n => (X.lookup n).isNone)).isEmpty = false := by
    rcases hfilter : P.feature_columns.filter (fun n => (X.lookup n).isNone) with
      _ | ⟨a, t⟩
    · exact absurd hfilter hne
    · rfl
  refine ⟨?_, hne, ?_⟩
  · unfold predict selectColumns
    rw [hT]
    simp [hie]
  · have hsel : ∀ n ∈ P.feature_columns,
        ((reindexFillZero Y P.feature_columns).lookup n).isNone = false := by
      intro n hn
      have := lookup_map_isSome
        (fun m => (Y.lookup m).getD (List.replicate (nrows Y) (some 0)))
        P.feature_columns n hn
      unfold reindexFillZero
      simp only [Option.isNone_eq_false_iff]
      exact this
    have hemp : (P.feature_columns.filter
        (fun n => ((reindexFillZero Y P.feature_columns).lookup n).isNone)) = [] := by
      rw [List.filter_eq_nil_iff]
      intro a ha
      simp [hsel a ha]
    unfold predict
    rw [hT]
    unfold selectColumns
    rw [hemp]
    simp

/-- C4 witness: the amended behavior at the concrete counterexample
predictor, its deficient input batch, and an empty batch to reindex. -/
theorem predict_missing_column_behavior_witness :
    cexPredictor.is_trained = true ∧
    "quiz_test_avg_pct" ∈ cexPredictor.feature_columns ∧
    cexFrame.lookup "quiz_test_avg_pct" = none ∧
    (predict cexPredictor cexFrame = .error (.keyError
      (cexPredictor.feature_columns.filter
        (fun n => (cexFrame.lookup n).isNone))) ∧
    cexPredictor.feature_columns.filter
      (fun n => (cexFrame.lookup n).isNone) ≠ [] ∧
    ∃ res, predict cexPredictor
      (reindexFillZero [] cexPredictor.feature_columns) = .ok res) :=
  ⟨rfl, by simp [cexPredictor], rfl,
    predict_missing_column_behavior cexPredictor cexFrame []
      "quiz_test_avg_pct" rfl (by simp [cexPredictor]) rfl⟩

/-- The pristine state of the load counterexample: nothing loaded yet. -/
def cexState : ModelState :=
  { model := none, feature_columns := [], model_version := none
    training_metrics := [], is_trained := false }

/-- A schema-incompatible artifact: it has a model entry but no
feature_columns key, so reading feature_columns raises inside the try. -/
def cexArtifact : ModelArtifact :=
  { model := some 7, feature_columns := none, model_version := none
    training_metrics := none }

/-- C5 counterexample: loading the schema-incompatible artifact returns
False instead of raising, and leaves a partially-initialized model: the
model field was overwritten even though the load failed. -/
theorem load_model_partial_state :
    (load_model cexState (some cexArtifact)).1 = false ∧
    (load_model cexState (some cexArtifact)).2.model = some 7 ∧
    cexState.model = none ∧
    (load_model cexState (some cexArtifact)).2 ≠ cexState := by
  refine ⟨rfl, rfl, rfl, ?_⟩
  intro h
  have := congrArg ModelState.model h
  simp [load_model, cexState, cexArtifact] at this

/-- C5 (amended): load_model catches every failure and returns False
rather than raising LoadError.  A corrupted file (joblib.load itself
raises) or an artifact without a model entry leaves the state unchanged,
but an artifact that has a model entry and lacks feature_columns leaves a
partially-initialized model: the model field keeps the freshly loaded
value while the remaining fields stay as they were. -/
theorem load_model_failure_behavior (st : ModelState) (a : ModelArtifact)
    (m : ℕ) (hm : a.model = some m) (hfc : a.feature_columns = none) :
    load_model st none = (false, st) ∧
    (∀ b : ModelArtifact, b.model = none → load_model st (some b) = (false, st)) ∧
    load_model st (some a) = (false, { st with model := some m }) := by
  refine ⟨rfl, ?_, ?_⟩
  · intro b hb
    simp [load_model, hb]
  · simp [load_model, hm, hfc]

/-- C5 witness: the amended load behavior at the concrete pristine state
and schema-incompatible artifact. -/
theorem load_model_failure_behavior_witness :
    cexArtifact.model = some 7 ∧
    cexArtifact.feature_columns = none ∧
    (load_model cexState none = (false, cexState) ∧
    (∀ b : ModelArtifact, b.model = none →
      load_model cexState (some b) = (false, cexState)) ∧
    load_model cexState (some cexArtifact)
      = (false, { cexState with model := some 7 })) :=
  ⟨rfl, rfl, load_model_failure_behavior cexState cexArtifact 7 rfl rfl⟩

/-- C6: predict on an untrained model raises the not-trained error, and
explain_global and explain_local before initialize_explainer raise the
not-initialized error; in each case an error is the entire outcome, so no
prediction or explanation result is returned. -/
theorem untrained_and_uninitialized_guards (P : DropoutPredictor)
    (X : DataFrame) (E : ModelExplainer) (Xr : List (List (Option ℚ)))
    (idx : Option (List ℕ)) (hP : P.is_trained = false)
    (hE : E.explainer = none) :
    predict P X = .error NotTrainedError ∧
    explain_global E Xr = .error NotInitializedError ∧
    explain_local E Xr idx = .error NotInitializedError := by
  refine ⟨?_, ?_, ?_⟩
  · simp [predict, hP]
  · unfold explain_global
    rw [hE]
  · unfold explain_local
    rw [hE]

/-- C6 witness: the guards at a concrete untrained predictor and a
concrete uninitialized explainer. -/
theorem untrained_and_uninitialized_guards_witness :
    predict { is_trained := false, feature_columns := []
              modelPredict := fun _ => 0, modelPredictProba := fun _ => 0 } []
        = .error NotTrainedError ∧
    explain_global { model := { is_trained := false, feature_columns := []
                                modelPredict := fun _ => 0
                                modelPredictProba := fun _ => 0 }
                     explainer := none, expected_value := none } []
        = .error NotInitializedError ∧
    explain_local { model := { is_trained := false, feature_columns := []
                               modelPredict := fun _ => 0
                               modelPredictProba := fun _ => 0 }
                    explainer := none, expected_value := none } [] none
        = .error NotInitializedError :=
  untrained_and_uninitialized_guards _ [] _ [] none rfl rfl

/-- C7: every recommendation list produced by the risk-factor analysis has
at most five entries and is sorted descending: each earlier entry relates
to each later one by the lexicographic at-least order on the
(priority_score, impact_score) pair. -/
theorem recommendations_ranked_top5 (sd : StudentData) (shap_values : List ℚ)
    (feature_names : List String) :
    (analyze_student_risk_factors sd shap_values feature_names).length ≤ 5 ∧
    (analyze_student_risk_factors sd shap_values feature_names).Pairwise
      recDescOrder := by
  unfold analyze_student_risk_factors
  constructor
  · rw [List.length_take]
    exact min_le_left _ _
  · exact List.Pairwise.sublist (List.take_sublist _ _)
      (List.sorted_insertionSort recDescOrder _)

/-- An association list whose values are all zero yields zero under lookup
with default zero. -/
theorem lookup_getD_zero (k : String) :
    ∀ (l : List (String × ℚ)), (∀ p ∈ l, p.2 = 0) → (l.lookup k).getD 0 = 0
  | [], _ => rfl
  | (a, b) :: t, h => by
    have hb : b = 0 := h (a, b) (List.mem_cons_self _ _)
    cases hk : k == a with
    | true => simp [List.lookup, hk, hb]
    | false =>
      simp only [List.lookup, hk]
      exact lookup_getD_zero k t (fun p hp => h p (List.mem_cons_of_mem _ hp))

/-- An all-zero attribution vector produces a zero impact for every
feature name. -/
theorem featureImpact_zero (names : List String) (n : ℕ) (k : String) :
    featureImpact names (List.replicate n 0) k = 0 := by
  unfold featureImpact
  refine lookup_getD_zero k _ (fun p hp => ?_)
  obtain ⟨x, y⟩ := p
  have hzip : (x, y) ∈ names.zip (List.replicate n (0 : ℚ)) :=
    (List.mem_reverse).1 hp
  have hy := (List.of_mem_zip hzip).2
  simpa using List.eq_of_mem_replicate hy

/-- A two-element list already in order is fixed by the insertion sort. -/
theorem insertionSort_pair (a b : Recommendation) (h : recDescOrder a b) :
    List.insertionSort recDescOrder [a, b] = [a, b] := by
  simp [List.insertionSort, List.orderedInsert, if_pos h]

/-- The seven analyzed feature names, as the attribution vector hands them
to analyze_student_risk_factors. -/
def defaultFeatureNames : List String :=
  ["attendance_percentage", "quiz_test_avg_pct", "assignment_timeliness",
   "fee_payment_status", "lms_login_count_monthly",
   "time_spent_online_hours_week", "socioeconomic_status"]

/-- The all-zero attribution vector over those seven features. -/
def zeroShap : List ℚ := List.replicate 7 0

/-- The recommendation the engagement analyzer emits for the defaulted
zero login count. -/
def lowEngagementRec : Recommendation :=
  { factor := "Low Online Engagement"
    current_value := .loginsPerMonthText 0
    target_value := ">15 logins/month"
    recommendation := "Provide additional learning resources and one-on-one support"
    priority := "Medium"
    priority_score := 5
    impact_score := 0
    intervention_type := "engagement_support"
    timeline := "2-3 weeks"
    resources_needed := ["Online learning specialist", "Engaging content"]
    success_metrics := ["Login frequency", "Content interaction"] }

/-- The recommendation the engagement analyzer emits for the defaulted
zero weekly online time. -/
def lowActivityRec : Recommendation :=
  { factor := "Low Online Activity"
    current_value := .hoursPerWeekText 0
    target_value := ">8 hours/week"
    recommendation := "Provide internet access support and digital literacy training"
    priority := "Medium"
    priority_score := 4
    impact_score := 0
    intervention_type := "technology_support"
    timeline := "1-2 weeks"
    resources_needed := ["Internet access", "Digital literacy trainer"]
    success_metrics := ["Online activity time", "Digital skills improvement"] }

/-- C10: with every field absent and an all-zero attribution vector, the
attendance, academic, financial and socioeconomic analyzers default to the
safe values 100, 100, 100, 1 and 3 and emit nothing, while the engagement
analyzer defaults logins and weekly online hours to 0 and always emits the
Low Online Engagement and Low Online Activity recommendations, so the full
analysis returns exactly those two. -/
theorem missing_fields_default_asymmetry :
    analyze_attendance_risk emptyStudent
      (featureImpact defaultFeatureNames zeroShap) = [] ∧
    analyze_academic_performance_risk emptyStudent
      (featureImpact defaultFeatureNames zeroShap) = [] ∧
    analyze_financial_risk emptyStudent
      (featureImpact defaultFeatureNames zeroShap) = [] ∧
    analyze_behavioral_risk emptyStudent
      (featureImpact defaultFeatureNames zeroShap) = [] ∧
    analyze_engagement_risk emptyStudent
      (featureImpact defaultFeatureNames zeroShap)
      = [lowEngagementRec, lowActivityRec] ∧
    analyze_student_risk_factors emptyStudent zeroShap defaultFeatureNames
      = [lowEngagementRec, lowActivityRec] ∧
    lowEngagementRec.factor = "Low Online Engagement" ∧
    lowActivityRec.factor = "Low Online Activity" := by
  have hz : ∀ k, featureImpact defaultFeatureNames zeroShap k = 0 :=
    fun k => featureImpact_zero defaultFeatureNames 7 k
  have h1 : analyze_attendance_risk emptyStudent
      (featureImpact defaultFeatureNames zeroShap) = [] := by
    norm_num [analyze_attendance_risk, hz, emptyStudent]
  have h2 : analyze_academic_performance_risk emptyStudent
      (featureImpact defaultFeatureNames zeroShap) = [] := by
    norm_num [analyze_academic_performance_risk, hz, emptyStudent]
  have h3 : analyze_financial_risk emptyStudent
      (featureImpact defaultFeatureNames zeroShap) = [] := by
    norm_num [analyze_financial_risk, hz, emptyStudent]
  have h4 : analyze_behavioral_risk emptyStudent
      (featureImpact defaultFeatureNames zeroShap) = [] := by
    norm_num [analyze_behavioral_risk, hz, emptyStudent]
  have h5 : analyze_engagement_risk emptyStudent
      (featureImpact defaultFeatureNames zeroShap)
      = [lowEngagementRec, lowActivityRec] := by
    norm_num [analyze_engagement_risk, hz, emptyStudent, lowEngagementRec,
      lowActivityRec]
  have hord : recDescOrder lowEngagementRec lowActivityRec := by
    unfold recDescOrder pairLexGE recKey lowEngagementRec lowActivityRec
    norm_num
  have h6 : analyze_student_risk_factors emptyStudent zeroShap
      defaultFeatureNames = [lowEngagementRec, lowActivityRec] := by
    unfold analyze_student_risk_factors
    simp only [h1, h2, h3, h4, h5, List.nil_append, List.append_nil]
    rw [insertionSort_pair lowEngagementRec lowActivityRec hord]
    rfl
  exact ⟨h1, h2, h3, h4, h5, h6, rfl, rfl⟩

/-- The median of a sorted nonempty list exists. -/
theorem medianOfSorted_isSome (s : List ℚ) (h : s ≠ []) :
    (medianOfSorted s).isSome := by
  unfold medianOfSorted
  have hpos : 0 < s.length := List.length_pos.2 h
  have hlt : s.length / 2 < s.length := Nat.div_lt_self hpos (by norm_num)
  have h1 : s[s.length / 2]? = some (s.get ⟨s.length / 2, hlt⟩) := by
    rw [List.getElem?_eq_getElem hlt]
    rfl
  rw [if_neg (by omega)]
  split_ifs with hodd
  · rw [h1]
    rfl
  · have hlt2 : s.length / 2 - 1 < s.length := by omega
    have h2 : s[s.length / 2 - 1]? = some (s.get ⟨s.length / 2 - 1, hlt2⟩) := by
      rw [List.getElem?_eq_getElem hlt2]
      rfl
    rw [h1, h2]
    rfl

/-- The median of a nonempty list exists. -/
theorem pandasMedian_isSome (l : List ℚ) (h : l ≠ []) :
    (pandasMedian l).isSome := by
  unfold pandasMedian
  refine medianOfSorted_isSome _ (fun hnil => h ?_)
  have := List.length_insertionSort (fun a b : ℚ => a ≤ b) l
  rw [hnil] at this
  exact List.length_eq_zero.1 this.symm

/-- Splitting a column into present and missing cells accounts for every
cell. -/
theorem filterMap_id_length {α : Type} (vals : List (Option α)) :
    (vals.filterMap id).length + (vals.filter Option.isNone).length
      = vals.length := by
  induction vals with
  | nil => rfl
  | cons v t ih =>
    cases v <;> simp [List.filterMap_cons, List.filter_cons] <;> omega

/-- A column with missing cells whose missing share is at most 30 percent
also has present cells. -/
theorem present_nonempty {α : Type} (vals : List (Option α))
    (hm : 0 < (vals.filter Option.isNone).length)
    (hp : (((vals.filter Option.isNone).length : ℚ) / (vals.length : ℚ)) * 100
        ≤ 30) :
    vals.filterMap id ≠ [] := by
  intro hnil
  have htot := filterMap_id_length vals
  rw [hnil] at htot
  simp only [List.length_nil, Nat.zero_add] at htot
  rw [htot] at hm hp
  have hn0 : ((vals.length : ℚ)) ≠ 0 := by
    have : (0:ℚ) < (vals.length : ℚ) := by exact_mod_cast hm
    exact ne_of_gt this
  rw [div_self hn0] at hp
  norm_num at hp

/-- The mode of a nonempty value list exists. -/
theorem pandasMode_isSome (l : List String) (h : l ≠ []) :
    (pandasMode l).isSome := by
  unfold pandasMode
  rcases hmx : (l.map (countOcc l)).max? with _ | mx
  · rw [List.max?_eq_none_iff, List.map_eq_nil_iff] at hmx
    exact absurd hmx h
  · simp only []
    have hmem : mx ∈ l.map (countOcc l) :=
      List.max?_mem (fun a b => max_choice a b) hmx
    obtain ⟨v, hv, hveq⟩ := List.mem_map.1 hmem
    have hvf : v ∈ l.filter (fun w => countOcc l w = mx) := by
      rw [List.mem_filter]
      exact ⟨hv, by simp [hveq]⟩
    have hlen : 0 < ((l.filter (fun w => countOcc l w = mx)).insertionSort
        (· ≤ ·)).length := by
      rw [List.length_insertionSort]
      exact List.length_pos.2 (List.ne_nil_of_mem hvf)
    rcases hsort : (l.filter (fun w => countOcc l w = mx)).insertionSort (· ≤ ·)
      with _ | ⟨a, t⟩
    · rw [hsort] at hlen
      simp at hlen
    · rfl

/-- The numeric column of the missing-value counterexample: half of its
cells are missing. -/
def cexMissingCol : ColData := .numericCol [some 1, none, none, some 3]

/-- C8 counterexample: a numeric column with 50 percent missing cells is
flagged but passed through unfilled by _handle_missing_values, so not
every missing value in every column is filled and over-30-percent columns
are not processed like the rest. -/
theorem missing_values_over30_left_unfilled :
    (handleMissingColumn cexMissingCol).1 = cexMissingCol ∧
    (handleMissingColumn cexMissingCol).2 = true ∧
    0 < colMissingCount (handleMissingColumn cexMissingCol).1 ∧
    handle_missing_values [("attendance_percentage", cexMissingCol)]
      = ([("attendance_percentage", cexMissingCol)],
         ["attendance_percentage"]) := by
  have hcol : handleMissingColumn cexMissingCol = (cexMissingCol, true) := by
    unfold handleMissingColumn
    rw [if_pos (by norm_num [cexMissingCol, colMissingCount]),
      if_pos (by norm_num [cexMissingCol, missingPct, colMissingCount,
        colLength])]
  refine ⟨by rw [hcol], by rw [hcol], ?_, ?_⟩
  · rw [hcol]
    norm_num [cexMissingCol, colMissingCount]
  · unfold handle_missing_values
    simp [hcol]

/-- C8 (amended): _handle_missing_values never drops a column; a column
with missing cells whose missing share is at most 30 percent is fully
imputed — a numeric column with its median, a categorical column with its
mode — leaving no missing cell; but a column whose missing share exceeds
30 percent is only flagged with a warning and left entirely unfilled. -/
theorem handle_missing_values_policy (df : List (String × ColData))
    (vals : List (Option ℚ)) (svals : List (Option String)) (c : ColData)
    (hm : 0 < colMissingCount (.numericCol vals))
    (hp : missingPct (.numericCol vals) ≤ 30)
    (hms : 0 < colMissingCount (.categoricalCol svals))
    (hps : missingPct (.categoricalCol svals) ≤ 30)
    (hcm : 0 < colMissingCount c) (hc30 : 30 < missingPct c) :
    ((handle_missing_values df).1.map Prod.fst = df.map Prod.fst) ∧
    (handleMissingColumn (.numericCol vals)).1
      = .numericCol (fillna vals (pandasMedian (vals.filterMap id))) ∧
    (fillna vals (pandasMedian (vals.filterMap id))).all Option.isSome
      = true ∧
    (handleMissingColumn (.categoricalCol svals)).1
      = .categoricalCol
          (svals.map (fun v => v <|> pandasMode (svals.filterMap id))) ∧
    (svals.map (fun v => v <|> pandasMode (svals.filterMap id))).all
        Option.isSome = true ∧
    handleMissingColumn c = (c, true) := by
  have hpres : vals.filterMap id ≠ [] := by
    refine present_nonempty vals ?_ ?_
    · simpa [colMissingCount] using hm
    · simpa [missingPct, colMissingCount, colLength] using hp
  obtain ⟨med, hmed⟩ := Option.isSome_iff_exists.1
    (pandasMedian_isSome (vals.filterMap id) hpres)
  have hspres : svals.filterMap id ≠ [] := by
    refine present_nonempty svals ?_ ?_
    · simpa [colMissingCount] using hms
    · simpa [missingPct, colMissingCount, colLength] using hps
  obtain ⟨mv, hmv⟩ := Option.isSome_iff_exists.1
    (pandasMode_isSome (svals.filterMap id) hspres)
  refine ⟨?_, ?_, ?_, ?_, ?_, ?_⟩
  · unfold handle_missing_values
    simp [List.map_map, Function.comp]
  · unfold handleMissingColumn
    rw [if_pos hm, if_neg (not_lt.2 hp)]
  · rw [List.all_eq_true]
    intro v hv
    unfold fillna at hv
    obtain ⟨x, hx, rfl⟩ := List.mem_map.1 hv
    rw [hmed]
    cases x <;> rfl
  · unfold handleMissingColumn
    rw [if_pos hms, if_neg (not_lt.2 hps)]
    simp only [hmv]
  · rw [List.all_eq_true]
    intro v hv
    obtain ⟨x, hx, rfl⟩ := List.mem_map.1 hv
    rw [hmv]
    cases x <;> rfl
  · unfold handleMissingColumn
    rw [if_pos hcm, if_pos hc30]

/-- C8 witness: the amended policy at a concrete dataframe, a numeric
column with one quarter missing, a categorical column with one quarter
missing, and the over-30-percent counterexample column. -/
theorem handle_missing_values_policy_witness :
    0 < colMissingCount (.numericCol [some 1, none, some 3, some 5]) ∧
    missingPct (.numericCol [some 1, none, some 3, some 5]) ≤ 30 ∧
    0 < colMissingCount (.categoricalCol [some "a", none, some "a", some "b"]) ∧
    missingPct (.categoricalCol [some "a", none, some "a", some "b"]) ≤ 30 ∧
    0 < colMissingCount cexMissingCol ∧
    30 < missingPct cexMissingCol ∧
    (((handle_missing_values [("x", cexMissingCol)]).1.map Prod.fst
        = [("x", cexMissingCol)].map Prod.fst) ∧
    (handleMissingColumn (.numericCol [some 1, none, some 3, some 5])).1
      = .numericCol (fillna [some 1, none, some 3, some 5]
          (pandasMedian ([some 1, none, some 3, some 5].filterMap id))) ∧
    (fillna [some 1, none, some 3, some 5]
        (pandasMedian ([some 1, none, some 3, some 5].filterMap id))).all
        Option.isSome = true ∧
    (handleMissingColumn
        (.categoricalCol [some "a", none, some "a", some "b"])).1
      = .categoricalCol ([some "a", none, some "a", some "b"].map
          (fun v => v <|>
            pandasMode ([some "a", none, some "a", some "b"].filterMap id))) ∧
    ([some "a", none, some "a", some "b"].map
        (fun v => v <|>
          pandasMode ([some "a", none, some "a", some "b"].filterMap id))).all
        Option.isSome = true ∧
    handleMissingColumn cexMissingCol = (cexMissingCol, true)) := by
  have hm : 0 < colMissingCount (.numericCol [some 1, none, some 3, some 5]) := by
    norm_num [colMissingCount]
  have hp : missingPct (.numericCol [some 1, none, some 3, some 5]) ≤ 30 := by
    norm_num [missingPct, colMissingCount, colLength]
  have hms : 0 < colMissingCount
      (.categoricalCol [some "a", none, some "a", some "b"]) := by
    norm_num [colMissingCount]
  have hps : missingPct
      (.categoricalCol [some "a", none, some "a", some "b"]) ≤ 30 := by
    norm_num [missingPct, colMissingCount, colLength]
  have hcm : 0 < colMissingCount cexMissingCol := by
    norm_num [colMissingCount, cexMissingCol]
  have hc30 : 30 < missingPct cexMissingCol := by
    norm_num [missingPct, colMissingCount, colLength, cexMissingCol]
  exact ⟨hm, hp, hms, hps, hcm, hc30,
    handle_missing_values_policy [("x", cexMissingCol)]
      [some 1, none, some 3, some 5] [some "a", none, some "a", some "b"]
      cexMissingCol hm hp hms hps hcm hc30⟩

/-- The percentage column of the rescaling counterexample: three numeric
cells on a 0-to-1 scale, with median one half. -/
def cexPctCol : List RawCell :=
  [.numCell (2/5) false, .numCell (1/2) true, .numCell (3/5) false]

/-- C9 counterexample: an attendance_percentage column with median at most
1 is parsed but never rescaled by 100, so the times-100 heuristic does not
apply to every percentage field. -/
theorem attendance_not_rescaled :
    clean_percentage_column "attendance_percentage" cexPctCol
      = [some (2/5), some (1/2), some (3/5)] ∧
    pandasMedian ((cexPctCol.map parseCell).filterMap id) = some (1/2) ∧
    clean_percentage_column "attendance_percentage" cexPctCol
      ≠ [some 40, some 50, some 60] := by
  have h1 : clean_percentage_column "attendance_percentage" cexPctCol
      = [some (2/5), some (1/2), some (3/5)] := by
    simp [clean_percentage_column, cexPctCol, parseCell]
  refine ⟨h1, ?_, ?_⟩
  · norm_num [pandasMedian, medianOfSorted, List.insertionSort,
      List.orderedInsert, cexPctCol, parseCell]
  · rw [h1]
    intro h
    simp only [List.cons.injEq, Option.some.injEq] at h
    norm_num at h

/-- C9 (amended): the percentage cleaning strips percent signs and parses
each of the three percentage-like fields to a number, but the times-100
rescale for a median of at most 1 applies only to assignment_timeliness:
attendance_percentage and quiz_test_avg_pct are returned as parsed
whatever their median, while assignment_timeliness is rescaled exactly
when its parsed median is at most 1. -/
theorem clean_percentage_rescale_behavior (col : List RawCell) (med : ℚ)
    (hmed : pandasMedian ((col.map parseCell).filterMap id) = some med) :
    clean_percentage_column "attendance_percentage" col = col.map parseCell ∧
    clean_percentage_column "quiz_test_avg_pct" col = col.map parseCell ∧
    (med ≤ 1 → clean_percentage_column "assignment_timeliness" col
      = (col.map parseCell).map (Option.map (fun q => q * 100))) ∧
    (1 < med → clean_percentage_column "assignment_timeliness" col
      = col.map parseCell) := by
  refine ⟨by simp [clean_percentage_column], by simp [clean_percentage_column],
    ?_, ?_⟩
  · intro hle
    unfold clean_percentage_column
    rw [if_pos rfl]
    simp only [hmed]
    rw [if_pos hle]
  · intro hlt
    unfold clean_percentage_column
    rw [if_pos rfl]
    simp only [hmed]
    rw [if_neg (not_le.2 hlt)]

/-- C9 witness: the amended behavior at the concrete 0-to-1 column, whose
median is one half: attendance stays as parsed and assignment_timeliness
is rescaled. -/
theorem clean_percentage_rescale_behavior_witness :
    pandasMedian ((cexPctCol.map parseCell).filterMap id) = some (1/2) ∧
    clean_percentage_column "attendance_percentage" cexPctCol
      = cexPctCol.map parseCell ∧
    ((1:ℚ)/2 ≤ 1 → clean_percentage_column "assignment_timeliness" cexPctCol
      = (cexPctCol.map parseCell).map (Option.map (fun q => q * 100))) := by
  have hmed : pandasMedian ((cexPctCol.map parseCell).filterMap id)
      = some (1/2) := by
    norm_num [pandasMedian, medianOfSorted, List.insertionSort,
      List.orderedInsert, cexPctCol, parseCell]
  exact ⟨hmed, (clean_percentage_rescale_behavior cexPctCol (1/2) hmed).1,
    (clean_percentage_rescale_behavior cexPctCol (1/2) hmed).2.2.1⟩

end StudentDropout
